import Mathlib

/-!
Verification development for the funnel SQL generator
(`funnel_analyzer.py` / `unified_loans_activities_funnel_analyzer.py`).

The Python code compiles a declarative funnel configuration into BigQuery SQL.
We shallowly embed both levels of the generator:

* the *semantics* encoded by the emitted SQL — the `funnel_base` labeling
  stage, the `funnel_completed` backfill stage (a UNION ALL of one branch per
  step), the availability filter `check_event_availability`, `validate_config`,
  and the percentile `step_order` CASE mapping; and
* the *text* of the emitted SQL for `generate_standard_funnel_sql`, built by
  the same string concatenations the Python f-strings perform.

Timestamps are modelled as integers counting seconds; `interval m minute`
arithmetic becomes `60 * m`; `date(ts)` becomes floor division by 86400 and
dates count days.  `NULL`-able SQL columns become `Option` values.
-/

/-- One funnel step, as in the `steps` entries of `FUNNEL_CONFIG`
(`rank`, `screen_name`, `loaded_events`).  The Python steps are dicts; the
keys `original_events` and `event_count` are attached by
`check_event_availability`, so for caller-supplied steps we let them default
to `[]` and `0`. -/
structure Step where
  rank : Nat
  screen_name : String
  loaded_events : List String
  original_events : List String := []
  event_count : Nat := 0
deriving DecidableEq

/-- Default step used to make list indexing total. -/
def dStep : Step := { rank := 0, screen_name := "", loaded_events := [] }

instance : Inhabited Step := ⟨dStep⟩

/-- Total indexing into a step list. -/
def stepAt (steps : List Step) (i : Nat) : Step := steps.getD i dStep

/-- The sublist of a step's `loaded_events` that actually occur in the data
window.  In `check_event_availability` the dict `available_events` is built
from a `GROUP BY event` count query, so an event is a key of that dict exactly
when its observed count is positive; `avail` is the count lookup. -/
def availEvents (avail : String → Nat) (s : Step) : List String :=
  s.loaded_events.filter (fun e => decide (0 < avail e))

/-- Worker for `check_event_availability`.  `k` counts the survivors already
emitted (the re-rank loop `step['rank'] = i + 1` runs over the survivor list).
Returns `(filtered_steps, state of config['steps'] after the call)`: Python
mutates the shared step dicts in place, so a surviving step appears *mutated*
(new `rank`, pruned `loaded_events`, attached `original_events` and
`event_count`) both in the returned list and in the caller's config, while a
dropped step stays in the config unchanged. -/
def ceaAux (avail : String → Nat) (k : Nat) : List Step → List Step × List Step
  | [] => ([], [])
  | s :: rest =>
    let av := availEvents avail s
    if av.isEmpty then
      let p := ceaAux avail k rest
      (p.1, s :: p.2)
    else
      let s' : Step :=
        { rank := k + 1
          screen_name := s.screen_name
          loaded_events := av
          original_events := s.loaded_events
          event_count := (av.map avail).sum }
      let p := ceaAux avail (k + 1) rest
      (s' :: p.1, s' :: p.2)

/-- `check_event_availability` (funnel_analyzer.py lines 110-160): first
component is the returned `filtered_steps`, second component is the state of
`config['steps']` after the call (Python mutates the step dicts in place). -/
def check_event_availability (avail : String → Nat) (steps : List Step) :
    List Step × List Step :=
  ceaAux avail 0 steps

/-- Configuration fields checked by `validate_config`; `none` models an absent
key of the config dict. -/
structure FunnelConfigFields where
  funnel_name : Option String := none
  project_id : Option String := none
  source_dataset : Option String := none
  destination_dataset : Option String := none
  data_source : Option String := none
  user_id_column : Option String := none
  session_id_column : Option String := none
  event_column : Option String := none
  timestamp_column : Option String := none
  partition_column : Option String := none
  time_period_days : Option Int := none
  steps : Option (List Step) := none
deriving DecidableEq

/-- `validate_config` (funnel_analyzer.py lines 93-108): checks presence of
each required field in order, then that `steps` is a non-empty list; any
failure raises `ValueError` (modelled as `Except.error` with the message).
No value of `time_period_days` is examined and no cross-step event check is
performed. -/
def validate_config (cfg : FunnelConfigFields) : Except String Unit :=
  if cfg.funnel_name.isNone then .error "Missing required field: funnel_name"
  else if cfg.project_id.isNone then .error "Missing required field: project_id"
  else if cfg.source_dataset.isNone then .error "Missing required field: source_dataset"
  else if cfg.destination_dataset.isNone then .error "Missing required field: destination_dataset"
  else if cfg.data_source.isNone then .error "Missing required field: data_source"
  else if cfg.user_id_column.isNone then .error "Missing required field: user_id_column"
  else if cfg.session_id_column.isNone then .error "Missing required field: session_id_column"
  else if cfg.event_column.isNone then .error "Missing required field: event_column"
  else if cfg.timestamp_column.isNone then .error "Missing required field: timestamp_column"
  else if cfg.partition_column.isNone then .error "Missing required field: partition_column"
  else if cfg.time_period_days.isNone then .error "Missing required field: time_period_days"
  else if cfg.steps.isNone then .error "Missing required field: steps"
  else if (cfg.steps.getD []).isEmpty then .error "Steps must be a non-empty array"
  else .ok ()

/-- The `step_stage` CASE of `funnel_base`: first step (in emitted order)
whose event set contains the row's event value wins; `null` when no step
matches. -/
def stepStageCase : List Step → String → Option Nat
  | [], _ => none
  | s :: rest, e =>
    if s.loaded_events.contains e then some s.rank else stepStageCase rest e

/-- The `screen_name` CASE of `funnel_base`: label of the first matching step,
else the raw event value. -/
def screenNameCase : List Step → String → String
  | [], e => e
  | s :: rest, e =>
    if s.loaded_events.contains e then s.screen_name else screenNameCase rest e

/-- A row of the source events table, restricted to the columns the generated
`funnel_base` WHERE clause and labeling read. -/
structure SourceRow where
  actor_id : String
  session_id : Option String
  event : String
  ts : Int
  partition_date : Int
deriving DecidableEq

/-- `date(timestamp)` with seconds-since-epoch timestamps and day-numbered
dates: floor division by 86400. -/
def dateOfTs (t : Int) : Int := t.fdiv 86400

/-- Union of the (filtered) steps' event sets, in emission order — this is the
`available_events` list whose join becomes the generated `filter_clause`. -/
def unionEvents (steps : List Step) : List String :=
  (steps.map Step.loaded_events).flatten

/-- The WHERE clause of the generated `funnel_base` stage
(funnel_analyzer.py lines 300-303): `event in (<surviving events>)`,
partition column inside the lookback window, `date()` of the timestamp column
inside the window, and session id non-null.  The predicates of
`config['filters']` are *not* interpolated into this SQL. -/
def funnelBaseWhere (events : List String) (N : Nat) (today : Int)
    (r : SourceRow) : Bool :=
  decide (r.event ∈ events) && decide (today - N ≤ r.partition_date) &&
    decide (today - N ≤ dateOfTs r.ts) && r.session_id.isSome

/-- Output row of the labeling stage (segmentation/extraction columns, which
are pass-through or constant `null`, are omitted). -/
structure BaseRow where
  actor_id : String
  session_id : Option String
  event : String
  screen_entry_time : Int
  step_stage : Option Nat
  screen_name : String
deriving DecidableEq

/-- The SELECT list of `funnel_base` applied to one source row. -/
def labelRow (steps : List Step) (r : SourceRow) : BaseRow :=
  { actor_id := r.actor_id
    session_id := r.session_id
    event := r.event
    screen_entry_time := r.ts
    step_stage := stepStageCase steps r.event
    screen_name := screenNameCase steps r.event }

/-- The `funnel_base` stage of the SQL emitted by
`generate_standard_funnel_sql`: scan the source rows, keep those passing the
generated WHERE clause, and label them. -/
def funnel_base (steps : List Step) (N : Nat) (today : Int)
    (rows : List SourceRow) : List BaseRow :=
  (rows.filter (funnelBaseWhere (unionEvents steps) N today)).map (labelRow steps)

/-- A row of `funnel_clean` (and of the backfill output `funnel_completed`,
which has the same column set).  `is_conversion_session` is the SQL 0/1 flag;
`time_to_convert` is in seconds, null at the end of a session. -/
structure FunnelRow where
  actor_id : String
  session_id : String
  screen_name : String
  screen_entry_time : Int
  step_stage : Nat
  current_tier : Option String := none
  affluence_v11_flag : Option String := none
  gender : Option String := none
  income_range : Option String := none
  app_version : Option String := none
  operating_system : Option String := none
  entry_point : Option String := none
  previous_screen_name : Option String := none
  screen_success_time : Option Int := none
  is_conversion_session : Nat := 0
  time_to_convert : Option Int := none
deriving DecidableEq

/-- The SELECT list of one UNION ALL branch of `funnel_completed`
(funnel_analyzer.py lines 231-270), applied to one `funnel_clean` row `r`
with `r.step_stage >= stepNum`.  `K` is `len(filtered_steps)`, `stepNum` the
branch's step rank, `label` its screen name and `prev` the interpolated
previous-step label (`'null'` — the SQL string literal — for the first list
entry).  Each CASE first passes the field through when `step_stage = stepNum`
(the canonical row of this very step), otherwise synthesizes the backfill
value. -/
def backfillBranchRow (K stepNum : Nat) (label : String) (prev : Option String)
    (r : FunnelRow) : FunnelRow :=
  { r with
    screen_name := label
    screen_entry_time :=
      if r.step_stage = stepNum then r.screen_entry_time
      else r.screen_entry_time - 60 * ((stepNum - 1 : Nat) : Int)
    step_stage := stepNum
    previous_screen_name :=
      if r.step_stage = stepNum then r.previous_screen_name
      else if stepNum = 1 then none
      else prev
    screen_success_time :=
      if r.step_stage = stepNum then r.screen_success_time
      else if stepNum = K then none
      else some (r.screen_entry_time + 60)
    is_conversion_session :=
      if r.step_stage = stepNum then r.is_conversion_session
      else if stepNum = K then 0
      else 1
    time_to_convert :=
      if r.step_stage = stepNum then r.time_to_convert
      else if stepNum = K then none
      else some 60 }

/-- The UNION ALL of `funnel_completed`: one branch per step (in list order),
each branch selecting every `funnel_clean` row with `step_stage >= rank`.
`prev` is the label interpolated as previous-step name for the head branch;
the Python loop interpolates `filtered_steps[i-1]['screen_name']` for `i > 0`
and the literal string `'null'` for `i = 0`. -/
def completedBranches (K : Nat) (prev : Option String) :
    List Step → List FunnelRow → List FunnelRow
  | [], _ => []
  | s :: rest, clean =>
    ((clean.filter (fun r => decide (s.rank ≤ r.step_stage))).map
        (backfillBranchRow K s.rank s.screen_name prev))
      ++ completedBranches K (some s.screen_name) rest clean

/-- The `funnel_completed` stage of the emitted SQL, as a function of the
filtered step list and the `funnel_clean` rows. -/
def funnel_completed (steps : List Step) (clean : List FunnelRow) :
    List FunnelRow :=
  completedBranches steps.length (some "null") steps clean

/-- The previous-step label interpolated into branch `i` of the completion
UNION: `'null'` (a string literal) for `i = 0`, else the screen name of list
entry `i - 1`. -/
def prevAt (prev : Option String) (steps : List Step) : Nat → Option String
  | 0 => prev
  | i + 1 => (steps.get? i).map Step.screen_name

/-- Number of output rows of a given actor/session at a given step stage. -/
def countAt (rows : List FunnelRow) (a sess : String) (v : Nat) : Nat :=
  rows.countP (fun r =>
    r.actor_id == a && r.session_id == sess && r.step_stage == v)

/-- Number of canonical (`funnel_clean`) rows of a given actor/session whose
step stage reaches at least `v`. -/
def cleanReach (clean : List FunnelRow) (a sess : String) (v : Nat) : Nat :=
  clean.countP (fun r =>
    r.actor_id == a && r.session_id == sess && decide (v ≤ r.step_stage))

/-- The `step_order` CASE of the percentile SQL
(funnel_analyzer.py lines 418-426): a mapping hard-coded to the screen names
of the embedded default `FUNNEL_CONFIG`, with 999 for any other name. -/
def percentileStepOrder (name : String) : Nat :=
  if name = "Tiering - Overview screen" then 1
  else if name = "Tiering - Add money to Fi" then 2
  else if name = "Add funds - Enter amount" then 3
  else if name = "Add funds - Payment options" then 4
  else if name = "Add funds - Payment success" then 5
  else if name = "Tiering - Upgrade screen" then 6
  else 999

/-- Modelled from the spec: the step-order lookup the claim describes — rank
of the screen name in the ordered step list the funnel compiler used for the
run, 999 when absent.  (The code hard-codes the mapping instead; this
definition exists to compare the two.) -/
def stepOrderFromSteps : List Step → String → Nat
  | [], _ => 999
  | s :: rest, name =>
    if name = s.screen_name then s.rank else stepOrderFromSteps rest name

/-- The percentile output ordering: rows (here: screen name with its assigned
`step_order`) ordered ascending by `step_order`, as `ORDER BY step_order`
does. -/
def percentileOutput (names : List String) : List (String × Nat) :=
  List.insertionSort (fun a b => a.2 ≤ b.2)
    (names.map (fun n => (n, percentileStepOrder n)))

/-- The steps of the embedded default `FUNNEL_CONFIG` of funnel_analyzer.py
(lines 34-65). -/
def configSteps : List Step :=
  [ { rank := 1, screen_name := "Tiering - Overview screen",
      loaded_events := ["LoadedTierOverviewScreen"] }
  , { rank := 2, screen_name := "Tiering - Add money to Fi",
      loaded_events := ["ClickedJoinTierButton"] }
  , { rank := 3, screen_name := "Add funds - Enter amount",
      loaded_events := ["ClickedAddFundsButton"] }
  , { rank := 4, screen_name := "Add funds - Payment options",
      loaded_events := ["ClickedAddFundCtaPO"] }
  , { rank := 5, screen_name := "Add funds - Payment success",
      loaded_events := ["BalanceUpdateEvent"] }
  , { rank := 6, screen_name := "Tiering - Upgrade screen",
      loaded_events := ["UserUpgradedTiering"] } ]

/-- The fixed `CompiledFunnelRow` column set of the spec's output contract. -/
def compiledFunnelRowColumns : List String :=
  [ "actor_id", "current_tier", "affluence_v11_flag", "gender", "income_range"
  , "session_id", "app_version", "operating_system", "entry_point"
  , "screen_name", "screen_entry_time", "step", "step_stage"
  , "previous_screen_name", "screen_success_time", "is_conversion_session"
  , "time_to_convert", "table_created_at" ]

/-- Output columns of the final SELECT of the SQL emitted by
`StandardFunnelAnalyzer.generate_standard_funnel_sql`
(funnel_analyzer.py lines 337-357). -/
def standardFunnelProjection : List String :=
  [ "actor_id", "current_tier", "affluence_v11_flag", "gender", "income_range"
  , "session_id", "app_version", "operating_system", "entry_point"
  , "screen_name", "screen_entry_time", "step", "step_stage"
  , "previous_screen_name", "screen_success_time", "is_conversion_session"
  , "time_to_convert", "table_created_at" ]

/-- Output columns of the final SELECT of the SQL emitted by
`UnifiedLoansFunnelAnalyzer.generate_standard_funnel_sql`
(unified_loans_activities_funnel_analyzer.py lines 342-365), including the
two extra Tableau aggregate columns. -/
def unifiedLoansFunnelProjection : List String :=
  [ "actor_id", "current_tier", "affluence_v11_flag", "gender", "income_range"
  , "session_id", "app_version", "operating_system", "entry_point"
  , "screen_name", "screen_entry_time", "step", "step_stage"
  , "previous_screen_name", "screen_success_time", "is_conversion_session"
  , "time_to_convert", "table_created_at", "total_users"
  , "total_users_first_step" ]

/-- The single-quote character (ASCII 39) used by the generator for SQL
string literals. -/
def qChar : Char := Char.ofNat 39

/-- The single-quote as a one-character string. -/
def sqt : String := String.singleton qChar

/-- Python's `sep.join(parts)`. -/
def joinSep (sep : String) : List String → String
  | [] => ""
  | [x] => x
  | x :: y :: rest => x ++ (sep ++ joinSep sep (y :: rest))

/-- The generator's `"', '".join(events)` — event names joined by
quote-comma-quote, with no escaping of the names themselves. -/
def joinQuoted (events : List String) : String :=
  joinSep (sqt ++ (", " ++ sqt)) events

/-- One line of the `step_stage` CASE built at funnel_analyzer.py line 178:
`when event in ('<events>') then <rank>`. -/
def stepCaseLine (st : Step) : String :=
  ("when event in (" ++ ((sqt ++ (joinQuoted st.loaded_events ++ sqt)) ++ ") then "))
    ++ toString st.rank

/-- One line of the `screen_name` CASE built at funnel_analyzer.py line 179:
`when event in ('<events>') then '<screen_name>'`. -/
def screenNameCaseLine (st : Step) : String :=
  ("when event in (" ++ ((sqt ++ (joinQuoted st.loaded_events ++ sqt)) ++ ") then "))
    ++ (sqt ++ (st.screen_name ++ sqt))

/-- The joined `step_case` text (join separator from line 181). -/
def stepCaseAll (steps : List Step) : String :=
  joinSep "\n        " (steps.map stepCaseLine)

/-- The joined `screen_name_case` text (join separator from line 182). -/
def screenNameCaseAll (steps : List Step) : String :=
  joinSep "\n        " (steps.map screenNameCaseLine)

/-- The generated `filter_clause` (funnel_analyzer.py lines 217-222): the IN
list over the surviving steps' events.  The `config['filters']` predicates are
not used here. -/
def filterClause (steps : List Step) : String :=
  "event in (" ++ ((sqt ++ (joinQuoted (unionEvents steps) ++ sqt)) ++ ")")

/-- Configuration fields read by the SQL text generator. -/
structure GenConfig where
  project_id : String
  destination_dataset : String
  data_source : String
  user_id_column : String
  session_id_column : String
  event_column : String
  timestamp_column : String
  partition_column : String
  time_period_days : Nat
  user_base_table : Option String := none
  user_segmentation_fields : Option (List String) := none
  app_version_extraction : Option String := none
  os_extraction : Option String := none
  entry_point_extraction : Option String := none

/-- One extraction field (funnel_analyzer.py lines 185-199): a
`JSON_EXTRACT_SCALAR` on the configured path with `:` replaced by `.`, or a
`null` literal when unconfigured. -/
def extractionField (path? : Option String) (outName : String) : String :=
  match path? with
  | some path =>
      "SAFE_CAST(JSON_EXTRACT_SCALAR(properties, " ++ sqt ++ "$."
        ++ path.replace ":" "." ++ sqt ++ ") AS STRING) as " ++ outName
  | none => "null as " ++ outName

/-- The three extraction fields in emission order. -/
def extractionFields (cfg : GenConfig) : List String :=
  [ extractionField cfg.app_version_extraction "app_version"
  , extractionField cfg.os_extraction "operating_system"
  , extractionField cfg.entry_point_extraction "entry_point" ]

/-- The user segmentation fields (funnel_analyzer.py lines 204-209): `u.`
qualified columns when a user base table and a non-empty field list are
configured, else four `null` literals. -/
def userSegFields (cfg : GenConfig) : List String :=
  match cfg.user_base_table, cfg.user_segmentation_fields with
  | some _, some (f :: fs) => (f :: fs).map (fun x => "u." ++ x)
  | _, _ =>
      [ "null as current_tier", "null as affluence_v11_flag"
      , "null as gender", "null as income_range" ]

/-- The user base table join (funnel_analyzer.py lines 212-214), empty when no
user base table is configured. -/
def userJoin (cfg : GenConfig) : String :=
  match cfg.user_base_table with
  | some t =>
      "left join `" ++ t ++ "` u on e." ++ cfg.user_id_column ++ " = u."
        ++ cfg.user_id_column
  | none => ""

/-- The interpolated previous-step label of completion branch `i`
(funnel_analyzer.py line 252): `filtered_steps[i-1]['screen_name']` for
`i > 0`, else the four characters `null`. -/
def completionPrevStr (steps : List Step) (i : Nat) : String :=
  if i = 0 then "null" else (stepAt steps (i - 1)).screen_name

/-- The text of completion branch `i` for step `st`
(funnel_analyzer.py lines 231-270); `K` is `len(filtered_steps)`. -/
def completionCase (steps : List Step) (K i : Nat) (st : Step) : String :=
  "\n        -- Step " ++ toString st.rank ++ ": " ++ st.screen_name
    ++ "\n        select \n            actor_id,\n            session_id,\n            "
    ++ (sqt ++ (st.screen_name ++ sqt)) ++ " as screen_name,\n            case \n                when step_stage = "
    ++ toString st.rank ++ " then screen_entry_time\n                else timestamp_sub(screen_entry_time, interval "
    ++ toString (st.rank - 1) ++ " minute)\n            end as screen_entry_time,\n            "
    ++ toString st.rank ++ " as step_stage,\n            current_tier, \n            affluence_v11_flag,\n            gender,\n            income_range,\n            app_version,\n            operating_system,\n            entry_point,\n            case \n                when step_stage = "
    ++ toString st.rank ++ " then previous_screen_name\n                when "
    ++ toString st.rank ++ " = 1 then null\n                else "
    ++ (sqt ++ (completionPrevStr steps i ++ sqt)) ++ "\n            end as previous_screen_name,\n            case \n                when step_stage = "
    ++ toString st.rank ++ " then screen_success_time\n                when "
    ++ toString st.rank ++ " = " ++ toString K ++ " then null\n                else timestamp_add(screen_entry_time, interval 1 minute)\n            end as screen_success_time,\n            case \n                when step_stage = "
    ++ toString st.rank ++ " then is_conversion_session\n                when "
    ++ toString st.rank ++ " = " ++ toString K ++ " then 0\n                else 1\n            end as is_conversion_session,\n            case \n                when step_stage = "
    ++ toString st.rank ++ " then time_to_convert\n                when "
    ++ toString st.rank ++ " = " ++ toString K ++ " then null\n                else 60\n            end as time_to_convert\n        from funnel_clean\n        where step_stage >= "
    ++ toString st.rank

/-- The joined `funnel_completion_sql` (funnel_analyzer.py line 272). -/
def funnelCompletionSql (steps : List Step) : String :=
  joinSep "\nunion all\n"
    (steps.enum.map (fun p => completionCase steps steps.length p.1 p.2))

/-- Text of the main template before the `step_case` splice
(funnel_analyzer.py lines 274-291). -/
def sqlPart1 (cfg : GenConfig) : String :=
  "\n-- Create STANDARD_FUNNEL table with exact schema\n-- Using funnel completion logic to fill in missing steps\ncreate or replace table `"
    ++ cfg.project_id ++ "." ++ cfg.destination_dataset
    ++ ".STANDARD_FUNNEL` as (\nwith funnel_base as (\n    select \n        e."
    ++ cfg.user_id_column ++ " as actor_id,\n        "
    ++ cfg.session_id_column ++ " as session_id,\n        e."
    ++ cfg.event_column ++ " as event,\n        e."
    ++ cfg.timestamp_column ++ " as screen_entry_time,\n        e.properties,\n        -- User segmentation fields\n        "
    ++ joinSep ", " (userSegFields cfg) ++ ",\n        -- Extraction fields\n        "
    ++ joinSep ", " (extractionFields cfg)
    ++ ",\n        -- Step mapping (only for events that exist)\n        case \n        "

/-- Text between the `step_case` and `screen_name_case` splices
(funnel_analyzer.py lines 292-294). -/
def sqlPart2 : String :=
  "\n        else null\n        end as step_stage,\n        case \n        "

/-- Text between the `screen_name_case` splice and the `funnel_completion_sql`
splice (funnel_analyzer.py lines 296-335), including the fixed `funnel_clean`
stage. -/
def sqlPart3 (cfg : GenConfig) (steps : List Step) : String :=
  "\n        else e." ++ cfg.event_column
    ++ "\n        end as screen_name\n    from `" ++ cfg.data_source
    ++ "` e\n    " ++ userJoin cfg ++ "\n    where " ++ filterClause steps
    ++ "\n    and " ++ cfg.partition_column
    ++ " >= date_sub(current_date(), interval " ++ toString cfg.time_period_days
    ++ " day)\n    and date(e." ++ cfg.timestamp_column
    ++ ") >= date_sub(current_date(), interval " ++ toString cfg.time_period_days
    ++ " day)\n    and " ++ cfg.session_id_column
    ++ " is not null\n)\n,funnel_clean as (\n    select \n        actor_id,\n        session_id,\n        screen_name,\n        screen_entry_time,\n        step_stage,\n        current_tier,\n        affluence_v11_flag,\n        gender,\n        income_range,\n        app_version,\n        operating_system,\n        entry_point,\n        -- Previous screen name\n        lag(screen_name) over (partition by actor_id, session_id order by screen_entry_time) as previous_screen_name,\n        -- Next screen entry time\n        lead(screen_entry_time) over (partition by actor_id, session_id order by screen_entry_time) as screen_success_time,\n        -- Is conversion session (has next step)\n        case when lead(screen_entry_time) over (partition by actor_id, session_id order by screen_entry_time) is not null then 1 else 0 end as is_conversion_session,\n        -- Time to convert\n        case when lead(screen_entry_time) over (partition by actor_id, session_id order by screen_entry_time) is not null \n             then timestamp_diff(lead(screen_entry_time) over (partition by actor_id, session_id order by screen_entry_time), screen_entry_time, second) \n             else null end as time_to_convert\n    from funnel_base\n    where step_stage is not null\n    qualify row_number() over (partition by actor_id, session_id, screen_name, step_stage order by step_stage desc, screen_entry_time desc) = 1\n)\n,funnel_completed as (\n    -- Apply funnel completion logic: if user reaches step N, include them in steps 1 to N-1\n"

/-- Text after the `funnel_completion_sql` splice
(funnel_analyzer.py lines 336-359): the fixed final projection. -/
def sqlPart4 : String :=
  "\n)\nselect \n    actor_id,\n    current_tier,\n    affluence_v11_flag,\n    gender,\n    income_range,\n    session_id,\n    app_version,\n    operating_system,\n    entry_point,\n    screen_name,\n    screen_entry_time,\n    cast(step_stage as string) as step,\n    step_stage,\n    previous_screen_name,\n    screen_success_time,\n    is_conversion_session,\n    time_to_convert,\n    current_timestamp() as table_created_at\nfrom funnel_completed\norder by actor_id, session_id, step_stage, screen_entry_time\n)\n"

/-- The full SQL text returned by
`StandardFunnelAnalyzer.generate_standard_funnel_sql` for a given config and
(already filtered) step list. -/
def genStandardFunnelSql (cfg : GenConfig) (steps : List Step) : String :=
  sqlPart1 cfg
    ++ (stepCaseAll steps
    ++ (sqlPart2
    ++ (screenNameCaseAll steps
    ++ (sqlPart3 cfg steps
    ++ (funnelCompletionSql steps
    ++ sqlPart4)))))

/-- Substring occurrence: `needle` occurs contiguously inside `hay`. -/
def ContainsSub (hay needle : String) : Prop :=
  ∃ pre post, hay = pre ++ (needle ++ post)

/-- Naive single-quote SQL literal scanner (no escaping, as in the emitted
dialect): `inLit` says whether scanning currently sits inside a literal, `acc`
collects the current literal's characters.  Returns the contents of the
complete literals in order, and `true` when the text ends inside an
unterminated literal. -/
def scanAux : Bool → List Char → List Char → List String × Bool
  | false, _, [] => ([], false)
  | false, a, c :: rest =>
      if c = qChar then scanAux true [] rest else scanAux false a rest
  | true, _, [] => ([], true)
  | true, a, c :: rest =>
      if c = qChar then
        let p := scanAux false [] rest
        (String.mk a :: p.1, p.2)
      else scanAux true (a ++ [c]) rest

/-- The single-quoted literals of a SQL text, plus an unterminated-literal
flag. -/
def scanLiterals (s : String) : List String × Bool :=
  scanAux false [] s.data


/-- The row that completion branch `i` of `funnel_completed` produces from the
canonical row `r` (with the previous-label interpolation the generator
performs, starting from the literal `null` at branch 0). -/
def branchRowAt (steps : List Step) (i : Nat) (r : FunnelRow) : FunnelRow :=
  backfillBranchRow steps.length (stepAt steps i).rank
    (stepAt steps i).screen_name (prevAt (some "null") steps i) r

/-- Modelled from the spec: the labeling-stage row restriction the claim
describes — the configured boolean filters ANDed, event in the union of the
surviving steps' event sets, partition column in the lookback window, and a
non-null session id.  (The emitted SQL does not interpolate the configured
filters; this definition exists to compare the two.) -/
def funnelBaseWhereClaim (filters : SourceRow → Bool) (events : List String)
    (N : Nat) (today : Int) (r : SourceRow) : Bool :=
  filters r && decide (r.event ∈ events) &&
    decide (today - N ≤ r.partition_date) && r.session_id.isSome

instance : IsTotal (String × Nat) (fun a b => a.2 ≤ b.2) :=
  ⟨fun a b => Nat.le_total a.2 b.2⟩

instance : IsTrans (String × Nat) (fun a b => a.2 ≤ b.2) :=
  ⟨fun _ _ _ hab hbc => Nat.le_trans hab hbc⟩

/-- Two-step funnel used as concrete input. -/
def steps2 : List Step :=
  [ { rank := 1, screen_name := "A", loaded_events := ["e1"] }
  , { rank := 2, screen_name := "B", loaded_events := ["e2"] } ]

/-- A deduplicated `funnel_clean` state in which one actor/session really
observed both step 1 and step 2 (one canonical row per step, as the
dedup key `(actor, session, screen_name, step_stage)` allows). -/
def clean2 : List FunnelRow :=
  [ { actor_id := "u", session_id := "s", screen_name := "A"
    , screen_entry_time := 0, step_stage := 1 }
  , { actor_id := "u", session_id := "s", screen_name := "B"
    , screen_entry_time := 600, step_stage := 2 } ]

/-- Three-step funnel used as concrete input. -/
def steps3 : List Step :=
  [ { rank := 1, screen_name := "A", loaded_events := ["e1"] }
  , { rank := 2, screen_name := "B", loaded_events := ["e2"] }
  , { rank := 3, screen_name := "C", loaded_events := ["e3"] } ]

/-- A canonical row that reached step 3 at time 1000. -/
def r3 : FunnelRow :=
  { actor_id := "u", session_id := "s", screen_name := "C"
  , screen_entry_time := 1000, step_stage := 3 }

/-- A `funnel_clean` state with only the step-3 canonical row. -/
def clean3 : List FunnelRow := [r3]

/-- A step list whose array order disagrees with its `rank` order (ranks are
1-based and contiguous, but the rank-1 step is listed second). -/
def stepsOO : List Step :=
  [ { rank := 2, screen_name := "B", loaded_events := ["e"] }
  , { rank := 1, screen_name := "A", loaded_events := ["e"] } ]

/-- Availability report in which every event occurs once. -/
def availAll : String → Nat := fun _ => 1

/-- Availability report in which only `e2` occurs. -/
def avail8 : String → Nat := fun e => if e == "e2" then 5 else 0

/-- Two-step funnel whose first step has no available events under
`avail8`. -/
def steps8 : List Step :=
  [ { rank := 1, screen_name := "A", loaded_events := ["e1"] }
  , { rank := 2, screen_name := "B", loaded_events := ["e2"] } ]

/-- Availability report in which only `ClickedAddFundsButton` (the event of
the default config's step 3) occurs. -/
def availOnly3 : String → Nat :=
  fun e => if e == "ClickedAddFundsButton" then 1 else 0

/-- Steps declaring the same event `e1` in two different steps. -/
def dupSteps : List Step :=
  [ { rank := 1, screen_name := "A", loaded_events := ["e1"] }
  , { rank := 2, screen_name := "B", loaded_events := ["e1"] } ]

/-- A config, complete in every required field, that declares `e1` in both
step 1 and step 2. -/
def cfgDup : FunnelConfigFields :=
  { funnel_name := some "f", project_id := some "p"
  , source_dataset := some "src", destination_dataset := some "dst"
  , data_source := some "ds", user_id_column := some "user_id"
  , session_id_column := some "sid", event_column := some "event"
  , timestamp_column := some "ts", partition_column := some "date"
  , time_period_days := some 30, steps := some dupSteps }

/-- A config, complete in every required field, with `time_period_days = 0`. -/
def cfgZeroDays : FunnelConfigFields :=
  { funnel_name := some "f", project_id := some "p"
  , source_dataset := some "src", destination_dataset := some "dst"
  , data_source := some "ds", user_id_column := some "user_id"
  , session_id_column := some "sid", event_column := some "event"
  , timestamp_column := some "ts", partition_column := some "date"
  , time_period_days := some 0
  , steps := some [{ rank := 1, screen_name := "A", loaded_events := ["e1"] }] }

/-- One-step funnel used as concrete input. -/
def stepsC3 : List Step :=
  [ { rank := 1, screen_name := "A", loaded_events := ["e1"] } ]

/-- A configured boolean filter predicate that the sample source row fails
(for instance the SQL fragment `1 = 0`, or any predicate false on it). -/
def filters0 : SourceRow → Bool := fun _ => false

/-- A source row with an in-funnel event, in-window dates and a session id. -/
def row0 : SourceRow :=
  { actor_id := "u", session_id := some "s", event := "e1"
  , ts := 8640000, partition_date := 100 }

/-- A generator config with no optional features enabled. -/
def cfgT : GenConfig :=
  { project_id := "p", destination_dataset := "d", data_source := "proj.ds.events"
  , user_id_column := "user_id", session_id_column := "sid"
  , event_column := "event", timestamp_column := "ts"
  , partition_column := "date", time_period_days := 30 }

/-- A step whose screen name contains a single-quote character. -/
def quoteStep : Step :=
  { rank := 1, screen_name := "O" ++ (sqt ++ "Brien"), loaded_events := ["e1"] }

/-- Two strings with the same character data are equal. -/
theorem strDataInj {a b : String} (h : a.data = b.data) : a = b := by
  cases a
  cases b
  exact congrArg String.mk h

/-- Character data of an appended string. -/
theorem strData_append (a b : String) : (a ++ b).data = a.data ++ b.data := by
  cases a
  cases b
  rfl

/-- Every string occurs inside itself. -/
theorem containsSub_self (s : String) : ContainsSub s s :=
  ⟨"", "", strDataInj (by simp [strData_append])⟩

/-- Occurrence is preserved by appending on the right. -/
theorem containsSub_appL {a n : String} (b : String) (h : ContainsSub a n) :
    ContainsSub (a ++ b) n := by
  obtain ⟨p, q, rfl⟩ := h
  exact ⟨p, q ++ b, strDataInj (by simp [strData_append])⟩

/-- Occurrence is preserved by appending on the left. -/
theorem containsSub_appR {b n : String} (a : String) (h : ContainsSub b n) :
    ContainsSub (a ++ b) n := by
  obtain ⟨p, q, rfl⟩ := h
  exact ⟨a ++ p, q, strDataInj (by simp [strData_append])⟩

/-- Occurrence is transitive through an intermediate substring. -/
theorem containsSub_trans {a m n : String} (h1 : ContainsSub a m)
    (h2 : ContainsSub m n) : ContainsSub a n := by
  obtain ⟨p, q, rfl⟩ := h1
  obtain ⟨p', q', rfl⟩ := h2
  exact ⟨p ++ p', q' ++ q, strDataInj (by simp [strData_append])⟩

/-- A member of the joined list occurs in the join. -/
theorem joinSep_contains (sep : String) :
    ∀ (l : List String) (x : String), x ∈ l → ContainsSub (joinSep sep l) x
  | [], x, hx => absurd hx (List.not_mem_nil x)
  | [y], x, hx => by
      rw [List.mem_singleton.mp hx]
      exact containsSub_self _
  | y :: z :: rest, x, hx => by
      rcases List.mem_cons.mp hx with h | h
      · rw [h]
        exact containsSub_appL _ (containsSub_self _)
      · exact containsSub_appR _
          (containsSub_appR _ (joinSep_contains sep (z :: rest) x h))

/-- Each event of a quoted-joined event list occurs, surrounded by single
quotes, inside the quoted join. -/
theorem quotedJoin_contains :
    ∀ (events : List String) (e : String), e ∈ events →
      ContainsSub (sqt ++ (joinQuoted events ++ sqt)) (sqt ++ (e ++ sqt))
  | [], e, hx => absurd hx (List.not_mem_nil e)
  | [y], e, hx => by
      rw [List.mem_singleton.mp hx]
      exact containsSub_self _
  | y :: z :: rest, e, hx => by
      rcases List.mem_cons.mp hx with h | h
      · have hsplit : sqt ++ (joinQuoted (y :: z :: rest) ++ sqt)
            = (sqt ++ (y ++ sqt))
              ++ (", " ++ (sqt ++ (joinQuoted (z :: rest) ++ sqt))) :=
          strDataInj (by simp [strData_append, joinQuoted, joinSep])
        rw [h, hsplit]
        exact containsSub_appL _ (containsSub_self _)
      · have hsplit : sqt ++ (joinQuoted (y :: z :: rest) ++ sqt)
            = (sqt ++ (y ++ (sqt ++ ", ")))
              ++ (sqt ++ (joinQuoted (z :: rest) ++ sqt)) :=
          strDataInj (by simp [strData_append, joinQuoted, joinSep])
        rw [hsplit]
        exact containsSub_appR _ (quotedJoin_contains (z :: rest) e h)

/-- The screen-name CASE line carries the quoted screen name. -/
theorem screenNameCaseLine_contains_name (st : Step) :
    ContainsSub (screenNameCaseLine st) (sqt ++ (st.screen_name ++ sqt)) := by
  simp only [screenNameCaseLine]
  exact containsSub_appR _ (containsSub_self _)

/-- The screen-name CASE line carries each declared event, quoted. -/
theorem screenNameCaseLine_contains_event (st : Step) (e : String)
    (he : e ∈ st.loaded_events) :
    ContainsSub (screenNameCaseLine st) (sqt ++ (e ++ sqt)) := by
  simp only [screenNameCaseLine]
  exact containsSub_appL _
    (containsSub_appR _ (containsSub_appL _ (quotedJoin_contains _ e he)))

/-- The full generated SQL contains the screen-name CASE line of every step of
the filtered step list. -/
theorem genSql_contains_screenLine (cfg : GenConfig) (steps : List Step)
    (st : Step) (h : st ∈ steps) :
    ContainsSub (genStandardFunnelSql cfg steps) (screenNameCaseLine st) := by
  simp only [genStandardFunnelSql, screenNameCaseAll]
  exact containsSub_appR _ (containsSub_appR _ (containsSub_appR _
    (containsSub_appL _
      (joinSep_contains _ _ _ (List.mem_map_of_mem screenNameCaseLine h)))))

/-- Filtering is absorbed by a second filter with the same predicate. -/
theorem filter_filter_self {α : Type} (p : α → Bool) (l : List α) :
    (l.filter p).filter p = l.filter p := by
  rw [List.filter_filter]
  simp

/-- Every element kept by a filter satisfies the filter predicate. -/
theorem filter_all_self {α : Type} (p : α → Bool) (l : List α) :
    (l.filter p).all p = true := by
  simp only [List.all_eq_true]
  intro a ha
  exact (List.mem_filter.mp ha).2

/-- Counting rows of one actor/session at step value `v` in the completion
UNION: every branch whose rank is `v` contributes one output row per clean row
of that actor/session with `step_stage ≥ v`, and no other branch contributes
any. -/
theorem countAt_completedBranches (K : Nat) (prev : Option String)
    (steps : List Step) (clean : List FunnelRow) (a sess : String) (v : Nat) :
    countAt (completedBranches K prev steps clean) a sess v
      = steps.countP (fun s => s.rank == v) * cleanReach clean a sess v := by
  induction steps generalizing prev with
  | nil => simp [completedBranches, countAt]
  | cons s rest ih =>
    have hcomp : ((fun r : FunnelRow =>
          r.actor_id == a && r.session_id == sess && r.step_stage == v)
            ∘ backfillBranchRow K s.rank s.screen_name prev)
        = fun r : FunnelRow =>
            (r.actor_id == a && r.session_id == sess) && (s.rank == v) := rfl
    simp only [completedBranches, countAt, List.countP_append, List.countP_map,
      hcomp, List.countP_filter]
    rw [show List.countP (fun r : FunnelRow =>
          r.actor_id == a && r.session_id == sess && r.step_stage == v)
          (completedBranches K (some s.screen_name) rest clean)
        = countAt (completedBranches K (some s.screen_name) rest clean) a sess v
      from rfl, ih]
    cases hsv : (s.rank == v) with
    | true =>
      have hv : s.rank = v := by simpa using hsv
      subst hv
      simp [List.countP_cons, hsv, Bool.and_true, cleanReach]
      ring
    | false =>
      simp [List.countP_cons, hsv]

/-- A completion branch passes a canonical row of its own step through
unchanged, apart from replacing the screen name by the step's label. -/
theorem backfill_passthrough (K k : Nat) (label : String) (prev : Option String)
    (r : FunnelRow) (h : r.step_stage = k) :
    backfillBranchRow K k label prev r = { r with screen_name := label } := by
  cases r
  simp only [backfillBranchRow] at *
  simp_all

/-- Each branch output row is a member of the completion UNION. -/
theorem mem_completedBranches (K : Nat) :
    ∀ (steps : List Step) (prev : Option String) (clean : List FunnelRow)
      (i : Nat) (r : FunnelRow), i < steps.length → r ∈ clean →
      (stepAt steps i).rank ≤ r.step_stage →
      backfillBranchRow K (stepAt steps i).rank (stepAt steps i).screen_name
        (prevAt prev steps i) r ∈ completedBranches K prev steps clean
  | [], _, _, i, r, hi, _, _ => absurd hi (by simp)
  | s :: rest, prev, clean, 0, r, hi, hr, hge => by
      simp only [completedBranches]
      apply List.mem_append_left
      refine List.mem_map_of_mem _ ?_
      rw [List.mem_filter]
      exact ⟨hr, by simpa using hge⟩
  | s :: rest, prev, clean, j + 1, r, hi, hr, hge => by
      simp only [completedBranches]
      apply List.mem_append_right
      have hprev : prevAt prev (s :: rest) (j + 1)
          = prevAt (some s.screen_name) rest j := by
        cases j <;> rfl
      have hstep : stepAt (s :: rest) (j + 1) = stepAt rest j := rfl
      rw [hprev, hstep]
      exact mem_completedBranches K rest (some s.screen_name) clean j r
        (Nat.lt_of_succ_lt_succ hi) hr (by rw [hstep] at hge; exact hge)

/-- Shape of the filtered step list produced by `ceaAux`: ranks are the dense
interval starting after the accumulator, survivors are exactly the steps with
an available event, kept in list order, and every surviving step carries a
non-empty, all-available event list. -/
theorem ceaAux_filtered (avail : String → Nat) :
    ∀ (k : Nat) (steps : List Step),
      ((ceaAux avail k steps).1.map Step.rank
        = List.range' (k + 1)
            (steps.countP (fun s => !(availEvents avail s).isEmpty)))
      ∧ ((ceaAux avail k steps).1.map Step.screen_name
        = (steps.filter (fun s => !(availEvents avail s).isEmpty)).map
            Step.screen_name)
      ∧ ((ceaAux avail k steps).1.all
          (fun s => !s.loaded_events.isEmpty
            && s.loaded_events.all (fun e => decide (0 < avail e))) = true)
  | k, [] => by simp [ceaAux]
  | k, s :: rest => by
      have ih := ceaAux_filtered avail (k + 1) rest
      have ih0 := ceaAux_filtered avail k rest
      cases hav : (availEvents avail s).isEmpty with
      | true =>
        simp only [ceaAux, hav, if_true]
        simpa [List.countP_cons, hav] using ih0
      | false =>
        simp only [ceaAux, hav, Bool.false_eq_true, if_false]
        refine ⟨?_, ?_, ?_⟩
        · have hc : List.countP (fun s => !(availEvents avail s).isEmpty) (s :: rest)
              = List.countP (fun s => !(availEvents avail s).isEmpty) rest + 1 := by
            simp [List.countP_cons, hav]
          rw [hc, List.range'_succ]
          simp [ih.1]
        · simp [hav, List.filter_cons, ih.2.1]
        · simp only [List.all_cons, ih.2.2, Bool.and_true]
          have h1 : (s.loaded_events.filter (fun e => decide (0 < avail e))).all
              (fun e => decide (0 < avail e)) = true := filter_all_self _ _
          have h2 : (s.loaded_events.filter (fun e => decide (0 < avail e))).isEmpty
              = false := hav
          simp [availEvents, h1, h2]

/-- Shape of the post-call `config['steps']` state: its surviving entries are
exactly the returned filtered list (the same mutated records), and its dropped
entries are the original dropped steps, unchanged. -/
theorem ceaAux_state (avail : String → Nat) :
    ∀ (k : Nat) (steps : List Step),
      (((ceaAux avail k steps).2.filter
          (fun s => !(availEvents avail s).isEmpty)) = (ceaAux avail k steps).1)
      ∧ (((ceaAux avail k steps).2.filter
          (fun s => (availEvents avail s).isEmpty))
        = steps.filter (fun s => (availEvents avail s).isEmpty))
  | k, [] => by simp [ceaAux]
  | k, s :: rest => by
      have ih := ceaAux_state avail (k + 1) rest
      have ih0 := ceaAux_state avail k rest
      cases hav : (availEvents avail s).isEmpty with
      | true =>
        simp only [ceaAux, hav, if_true]
        constructor
        · simpa [List.filter_cons, hav] using ih0.1
        · simpa [List.filter_cons, hav] using ih0.2
      | false =>
        simp only [ceaAux, hav, Bool.false_eq_true, if_false]
        have hs' : availEvents avail
            { rank := k + 1, screen_name := s.screen_name
            , loaded_events := availEvents avail s
            , original_events := s.loaded_events
            , event_count := ((availEvents avail s).map avail).sum }
            = availEvents avail s := by
          simp only [availEvents]
          exact filter_filter_self _ _
        constructor
        · simp [List.filter_cons, hs', hav, ih.1]
        · simp [List.filter_cons, hs', hav, ih.2]

/-- C1 (counterexample): the claim "exactly one output row per step `1..S`
per actor/session" fails.  `clean2` is a deduplicated `funnel_clean` state in
which one actor/session canonically reached steps 1 and 2 (max step `S = 2`),
yet the compiled output contains *two* rows at step 1 for that actor/session,
because every UNION branch emits one row per canonical row with
`step_stage >= rank`. -/
theorem c1_backfill_count_counterexample :
    ((clean2.map FunnelRow.step_stage).foldr Nat.max 0 = 2)
    ∧ countAt (funnel_completed steps2 clean2) "u" "s" 1 = 2 := by
  decide

/-- C1 (amended): for a step rank `v` occurring exactly once in the step
list, the number of output rows of an actor/session at step `v` equals the
number of that actor/session's canonical rows with `step_stage ≥ v` (hence it
is exactly one for every step `1..S` precisely when the actor/session has a
single canonical row); and the branch of a row's own step passes every field
through unchanged, apart from setting the screen name to the step label. -/
theorem c1_backfill_count_amended (steps : List Step) (clean : List FunnelRow)
    (a sess : String) (v : Nat)
    (hv : steps.countP (fun s => s.rank == v) = 1) :
    countAt (funnel_completed steps clean) a sess v = cleanReach clean a sess v
    ∧ ∀ (K k : Nat) (label : String) (prev : Option String) (r : FunnelRow),
        r.step_stage = k →
        backfillBranchRow K k label prev r = { r with screen_name := label } := by
  constructor
  · rw [funnel_completed, countAt_completedBranches, hv, Nat.one_mul]
  · intro K k label prev r h
    exact backfill_passthrough K k label prev r h

/-- C1 (witness): the amended count law evaluated on the concrete two-step
state. -/
theorem c1_backfill_count_amended_witness :
    countAt (funnel_completed steps2 clean2) "u" "s" 2
      = cleanReach clean2 "u" "s" 2 :=
  (c1_backfill_count_amended steps2 clean2 "u" "s" 2 (by decide)).1

/-- C2 (counterexample): the claimed timestamp ordering of backfilled rows is
inverted.  From a single canonical row at step 3 (entry time 1000), the
backfilled step-1 row gets entry time `1000 - 60*(1-1) = 1000` and the
backfilled step-2 row gets `1000 - 60*(2-1) = 940`: the smaller step's
synthetic entry time is strictly *later*, not strictly earlier. -/
theorem c2_backfill_fields_counterexample :
    ((funnel_completed steps3 clean3).map
        (fun r => (r.step_stage, r.screen_entry_time))
      = [(1, 1000), (2, 940), (3, 1000)])
    ∧ ¬((1000 : Int) < 940) := by
  decide

/-- C2 (amended): a backfilled row for branch `i` (rank below the canonical
row's reached step) has entry time `original - (rank - 1)` minutes — which
makes entry times *decrease* as the step rank grows, the opposite of the
claimed order — previous screen name the label interpolated from list entry
`i - 1` (null at rank 1), success time `original + 1` minute, conversion flag
1, and time-to-convert 60; and the produced row is in the compiled output. -/
theorem c2_backfill_fields_amended (steps : List Step) (clean : List FunnelRow)
    (i : Nat) (r : FunnelRow) (hi : i < steps.length) (hr : r ∈ clean)
    (h1 : 1 ≤ (stepAt steps i).rank)
    (hlt : (stepAt steps i).rank < r.step_stage)
    (hle : r.step_stage ≤ steps.length) :
    branchRowAt steps i r ∈ funnel_completed steps clean
    ∧ (branchRowAt steps i r).screen_entry_time
        = r.screen_entry_time - 60 * (((stepAt steps i).rank - 1 : Nat) : Int)
    ∧ (branchRowAt steps i r).previous_screen_name
        = (if (stepAt steps i).rank = 1 then none
           else prevAt (some "null") steps i)
    ∧ (branchRowAt steps i r).screen_success_time
        = some (r.screen_entry_time + 60)
    ∧ (branchRowAt steps i r).is_conversion_session = 1
    ∧ (branchRowAt steps i r).time_to_convert = some 60
    ∧ ∀ j, j < steps.length → (stepAt steps i).rank < (stepAt steps j).rank →
        (stepAt steps j).rank < r.step_stage →
        (branchRowAt steps j r).screen_entry_time
          < (branchRowAt steps i r).screen_entry_time := by
  have hne : r.step_stage ≠ (stepAt steps i).rank := (Nat.ne_of_lt hlt).symm
  have hKne : (stepAt steps i).rank ≠ steps.length :=
    Nat.ne_of_lt (Nat.lt_of_lt_of_le hlt hle)
  refine ⟨?_, ?_, ?_, ?_, ?_, ?_, ?_⟩
  · exact mem_completedBranches steps.length steps (some "null") clean i r hi hr
      (Nat.le_of_lt hlt)
  · simp [branchRowAt, backfillBranchRow, hne]
  · simp [branchRowAt, backfillBranchRow, hne]
  · simp [branchRowAt, backfillBranchRow, hne, hKne]
  · simp [branchRowAt, backfillBranchRow, hne, hKne]
  · simp [branchRowAt, backfillBranchRow, hne, hKne]
  · intro j hj hij hjr
    have hnej : r.step_stage ≠ (stepAt steps j).rank := (Nat.ne_of_lt hjr).symm
    simp only [branchRowAt, backfillBranchRow]
    rw [if_neg hnej, if_neg hne]
    have hsub : (stepAt steps i).rank - 1 < (stepAt steps j).rank - 1 := by
      omega
    omega

/-- C2 (witness): the amended backfill-field law evaluated at branch 0 for
the concrete canonical step-3 row. -/
theorem c2_backfill_fields_amended_witness :
    branchRowAt steps3 0 r3 ∈ funnel_completed steps3 clean3 :=
  (c2_backfill_fields_amended steps3 clean3 0 r3 (by decide) (by decide)
    (by decide) (by decide) (by decide)).1

/-- C3 (counterexample): the labeling stage does not apply the configured
boolean filter predicates.  The concrete row `row0` fails the configured
filter `filters0`, yet it passes the generated WHERE clause and its labeled
image is in the `funnel_base` output. -/
theorem c3_where_clause_counterexample :
    funnelBaseWhere (unionEvents stepsC3) 30 100 row0 = true
    ∧ labelRow stepsC3 row0 ∈ funnel_base stepsC3 30 100 [row0]
    ∧ funnelBaseWhereClaim filters0 (unionEvents stepsC3) 30 100 row0 = false := by
  decide

/-- C3 (amended): a row is in the `funnel_base` output exactly when its event
is in the union of the surviving steps' event sets, its partition date and
the date of its timestamp both lie in the lookback window, and its session id
is non-null — the configured `config['filters']` predicates are not part of
the emitted restriction. -/
theorem c3_where_clause_amended (steps : List Step) (N : Nat) (today : Int)
    (rows : List SourceRow) (b : BaseRow) :
    b ∈ funnel_base steps N today rows ↔
      ∃ r, r ∈ rows ∧ r.event ∈ unionEvents steps
        ∧ today - N ≤ r.partition_date ∧ today - N ≤ dateOfTs r.ts
        ∧ r.session_id.isSome = true ∧ b = labelRow steps r := by
  simp only [funnel_base, List.mem_map, List.mem_filter, funnelBaseWhere,
    Bool.and_eq_true, decide_eq_true_eq]
  constructor
  · rintro ⟨r, ⟨hr, ⟨⟨⟨h1, h2⟩, h3⟩, h4⟩⟩, rfl⟩
    exact ⟨r, hr, h1, h2, h3, h4, rfl⟩
  · rintro ⟨r, hr, h1, h2, h3, h4, rfl⟩
    exact ⟨r, ⟨hr, ⟨⟨⟨h1, h2⟩, h3⟩, h4⟩⟩, rfl⟩

/-- C4 (counterexample): surviving steps are kept in *list* order, not in the
order of their original ranks.  `stepsOO` lists the rank-2 step "B" before
the rank-1 step "A"; with every event available the filter returns
`[B (re-ranked 1), A (re-ranked 2)]`, whereas a stable sort by original rank
would return `[A, B]`. -/
theorem c4_availability_filter_counterexample :
    ((check_event_availability availAll stepsOO).1.map
        (fun s => (s.rank, s.screen_name))
      = [(1, "B"), (2, "A")])
    ∧ [(1, "B"), (2, "A")] ≠ [(1, "A"), (2, "B")] := by
  decide

/-- C4 (amended): `check_event_availability` returns exactly the steps having
at least one declared event with a positive observed count, renumbered to the
dense ranks `1..K` and kept in their original *list* order (which coincides
with rank order only when the input list is sorted by rank); every surviving
step's event list is non-empty and entirely available. -/
theorem c4_availability_filter_amended (avail : String → Nat)
    (steps : List Step) :
    ((check_event_availability avail steps).1.map Step.rank
      = List.range' 1 (steps.countP (fun s => !(availEvents avail s).isEmpty)))
    ∧ ((check_event_availability avail steps).1.map Step.screen_name
      = (steps.filter (fun s => !(availEvents avail s).isEmpty)).map
          Step.screen_name)
    ∧ ((check_event_availability avail steps).1.all
        (fun s => !s.loaded_events.isEmpty
          && s.loaded_events.all (fun e => decide (0 < avail e))) = true) :=
  ceaAux_filtered avail 0 steps

/-- C5 (counterexample): the percentile `step_order` mapping is hard-coded to
the embedded default config's original step labels, not looked up in the step
list the funnel compiler used for the run.  When only the step-3 event is
available, the funnel run uses the filtered, re-ranked list in which
"Add funds - Enter amount" has rank 1; the percentile SQL still assigns it
`step_order = 3`. -/
theorem c5_percentile_order_counterexample :
    ((check_event_availability availOnly3 configSteps).1.map
        (fun s => (s.rank, s.screen_name))
      = [(1, "Add funds - Enter amount")])
    ∧ stepOrderFromSteps (check_event_availability availOnly3 configSteps).1
        "Add funds - Enter amount" = 1
    ∧ percentileStepOrder "Add funds - Enter amount" = 3 := by
  decide

/-- C5 (amended): the percentile `step_order` CASE equals a lookup in the
*original embedded config's* step list (not the run's filtered list), assigns
999 to unknown screen names, and the output rows are ordered ascending by
`step_order`, so unknown names (999, above every configured rank ≤ 6) sort
last. -/
theorem c5_percentile_order_amended :
    (∀ name, percentileStepOrder name = stepOrderFromSteps configSteps name)
    ∧ (∀ names, List.Sorted (fun a b : String × Nat => a.2 ≤ b.2)
        (percentileOutput names))
    ∧ (∀ name, percentileStepOrder name = 999 ∨ percentileStepOrder name ≤ 6) := by
  refine ⟨?_, ?_, ?_⟩
  · intro name
    simp [percentileStepOrder, stepOrderFromSteps, configSteps]
  · intro names
    simp only [percentileOutput]
    exact List.sorted_insertionSort _ _
  · intro name
    unfold percentileStepOrder
    split_ifs <;> omega

/-- C6: the code does not implement the claimed `AmbiguousEventMapping`
failure.  For the complete config `cfgDup`, which declares `e1` in two
different steps, validation succeeds and the generated CASE labels `e1` rows
with step 1 by first match. -/
theorem c6_ambiguous_event_behavior :
    validate_config cfgDup = Except.ok ()
    ∧ ("e1" ∈ (stepAt dupSteps 0).loaded_events
        ∧ "e1" ∈ (stepAt dupSteps 1).loaded_events
        ∧ stepAt dupSteps 0 ≠ stepAt dupSteps 1)
    ∧ stepStageCase dupSteps "e1" = some 1
    ∧ screenNameCase dupSteps "e1" = "A" :=
  ⟨rfl, by decide, rfl, rfl⟩

/-- C7: the code does not implement the claimed `ConfigError` for
`time_period_days = 0`.  For the complete config `cfgZeroDays` with
`time_period_days = 0`, validation succeeds, so the pipeline proceeds. -/
theorem c7_zero_days_behavior :
    cfgZeroDays.time_period_days = some 0
    ∧ validate_config cfgZeroDays = Except.ok () :=
  ⟨rfl, rfl⟩

/-- C8 (counterexample): availability filtering mutates the caller's
configuration.  Under `avail8` the surviving step "B" is re-ranked and pruned
*inside* `config['steps']`: after the call the config's step list is no
longer equal to the original. -/
theorem c8_immutability_counterexample :
    (check_event_availability avail8 steps8).2
      = [ { rank := 1, screen_name := "A", loaded_events := ["e1"] }
        , { rank := 1, screen_name := "B", loaded_events := ["e2"]
          , original_events := ["e2"], event_count := 5 } ]
    ∧ (check_event_availability avail8 steps8).2 ≠ steps8 := by
  decide

/-- C8 (amended): the call returns a new list object, but its entries are the
caller's surviving step records mutated in place: the post-call config step
list consists exactly of the returned (re-ranked, pruned) survivors plus the
dropped steps unchanged. -/
theorem c8_immutability_amended (avail : String → Nat) (steps : List Step) :
    (((check_event_availability avail steps).2.filter
        (fun s => !(availEvents avail s).isEmpty))
      = (check_event_availability avail steps).1)
    ∧ (((check_event_availability avail steps).2.filter
        (fun s => (availEvents avail s).isEmpty))
      = steps.filter (fun s => (availEvents avail s).isEmpty)) :=
  ceaAux_state avail 0 steps

/-- C9 (counterexample): the two variants do not project the same column
list — the unified loans variant appends two extra columns. -/
theorem c9_projection_counterexample :
    standardFunnelProjection ≠ unifiedLoansFunnelProjection := by
  decide

/-- C9 (amended): the standard variant projects exactly the fixed
`CompiledFunnelRow` column set, and the unified loans variant projects that
same set followed by the two extra Tableau aggregates `total_users` and
`total_users_first_step`. -/
theorem c9_projection_amended :
    standardFunnelProjection = compiledFunnelRowColumns
    ∧ unifiedLoansFunnelProjection
        = compiledFunnelRowColumns ++ ["total_users", "total_users_first_step"] :=
  ⟨rfl, rfl⟩

/-- C10: the generated SQL interpolates screen names and event names verbatim
between single quotes with no escaping: for every filtered step list the
emitted text contains each step's quoted screen name and each declared quoted
event name as substrings; and for the concrete step whose screen name
contains a single quote, the emitted CASE line's literal terminates at that
embedded quote (the scanner recovers `"O"`, not the full name, and the line
ends inside an unterminated literal — malformed SQL). -/
theorem c10_verbatim_quoting :
    (∀ (cfg : GenConfig) (steps : List Step) (st : Step), st ∈ steps →
      ContainsSub (genStandardFunnelSql cfg steps) (screenNameCaseLine st)
      ∧ ContainsSub (genStandardFunnelSql cfg steps)
          (sqt ++ (st.screen_name ++ sqt))
      ∧ ∀ e ∈ st.loaded_events,
          ContainsSub (genStandardFunnelSql cfg steps) (sqt ++ (e ++ sqt)))
    ∧ scanLiterals (screenNameCaseLine quoteStep) = (["e1", "O"], true)
    ∧ "O" ≠ quoteStep.screen_name := by
  refine ⟨?_, ?_, ?_⟩
  · intro cfg steps st hst
    refine ⟨genSql_contains_screenLine cfg steps st hst, ?_, ?_⟩
    · exact containsSub_trans (genSql_contains_screenLine cfg steps st hst)
        (screenNameCaseLine_contains_name st)
    · intro e he
      exact containsSub_trans (genSql_contains_screenLine cfg steps st hst)
        (screenNameCaseLine_contains_event st e he)
  · decide
  · decide

/-- C10 (witness): the quoted screen name "A" occurs in the SQL generated for
the concrete config and one-step funnel. -/
theorem c10_verbatim_quoting_witness :
    ContainsSub (genStandardFunnelSql cfgT stepsC3) (sqt ++ ("A" ++ sqt)) :=
  (c10_verbatim_quoting.1 cfgT stepsC3
    { rank := 1, screen_name := "A", loaded_events := ["e1"] }
    (by decide)).2.1
